import Mathlib

/-!
# Fragment-mode lifecycle layer of LÖVE on Android

A shallow embedding of `src/common/android_fragment.cpp`
(namespace `love::android::fragment`).

The five file-level statics form the `Session`.  Everything the file reaches
through SDL, JNI and Lua is a collaborator: its observable state lives in
`Host`, and every effectful statement of the source appends one `Step` to
`Host.trace`, in program order.  Outcomes that the collaborators decide
(what `GetJavaVM` stores, whether `NewGlobalRef` or `SDL_CreateThread` return
null, whether `GetEnv` finds the calling thread attached, what each coroutine
resumption reports)
are explicit arguments of the embedded functions.
-/

namespace love.android.fragment

/-! ## Data model -/

/-- The SDL event kinds the file uses; `SDL_EVENT_FIRST` is the value a
zero-initialised `SDL_Event` has. -/
inductive SDL_EventType where
  | SDL_EVENT_FIRST
  | SDL_EVENT_QUIT
  | SDL_EVENT_WINDOW_MINIMIZED
  | SDL_EVENT_WINDOW_RESTORED
  deriving DecidableEq, Repr

/-- The two members of the `SDL_Event` union the file writes: the common
`type` tag and `window.windowID`.  The default value is `SDL_Event event = {}`. -/
structure SDL_Event where
  type : SDL_EventType := SDL_EventType.SDL_EVENT_FIRST
  windowID : Nat := 0
  deriving DecidableEq, Repr

/-- A `JNIEnv *` handed to native code: the interface pointer of a thread
attached to the Java VM `vm`. -/
structure JNIEnv where
  vm : Nat
  deriving DecidableEq, Repr

/-- The file-level statics of `android_fragment.cpp`; `none` is `nullptr`. -/
structure Session where
  loveThread : Option Nat := none
  lovePath : String := ""
  quitRequested : Bool := false
  javaVM : Option Nat := none
  activityRef : Option Nat := none
  deriving DecidableEq, Repr

/-- One effectful statement of the source, as it is executed. -/
inductive Step where
  | SDL_Log (fmt : String)
  | GetJavaVM (vm : Option Nat)
  | NewGlobalRef (context : Option Nat) (result : Option Nat)
  | SDL_CreateThread (name : String) (result : Option Nat)
  | SDL_PushEvent (event : SDL_Event)
  | SDL_WaitThread (thread : Nat) (blocked : Bool)
  | GetEnv (attached : Bool)
  | DeleteGlobalRef (ref : Nat)
  | set_activityRef (v : Option Nat)
  | set_lovePath (v : String)
  | set_quitRequested (v : Bool)
  | set_loveThread (v : Option Nat)
  | set_javaVM (v : Option Nat)
  deriving DecidableEq, Repr

/-- Observable state of the collaborators (SDL and the Java VM). -/
structure Host where
  /-- the SDL event queue, oldest event first -/
  queue : List SDL_Event := []
  /-- worker threads created by `SDL_CreateThread` whose function has not returned -/
  running : List Nat := []
  /-- identifier the next created thread gets -/
  nextThread : Nat := 0
  /-- JNI global references created and not yet deleted -/
  liveRefs : List Nat := []
  /-- JNI global references passed to `DeleteGlobalRef`, in order -/
  deleted : List Nat := []
  /-- identifier the next created global reference gets -/
  nextRef : Nat := 0
  /-- the statements executed so far -/
  trace : List Step := []
  deriving DecidableEq, Repr

/-- The statics together with the collaborators. -/
structure World where
  session : Session := {}
  host : Host := {}
  deriving DecidableEq, Repr

/-- Process start: all statics at their initialisers, nothing has run. -/
def World.initial : World := {}

/-! ## Collaborator calls -/

/-- Appends a statement to the trace. -/
def emit (st : Step) (h : Host) : Host :=
  { h with trace := h.trace ++ [st] }

/-- Call `SDL_Log(fmt, ...)`. -/
def SDL_Log (fmt : String) (h : Host) : Host :=
  emit (Step.SDL_Log fmt) h

/-- Call `SDL_PushEvent(&event)`: the event goes to the back of the queue. -/
def SDL_PushEvent (event : SDL_Event) (h : Host) : Host :=
  emit (Step.SDL_PushEvent event) { h with queue := h.queue ++ [event] }

/-- Call `env->NewGlobalRef(context)`: null for a null `context` or when the
VM cannot create the reference (`ok = false`), else a fresh global reference. -/
def NewGlobalRef (context : Option Nat) (ok : Bool) (h : Host) : Option Nat × Host :=
  match context with
  | none => (none, emit (Step.NewGlobalRef none none) h)
  | some c =>
    if ok then
      (some h.nextRef,
        emit (Step.NewGlobalRef (some c) (some h.nextRef))
          { h with liveRefs := h.liveRefs ++ [h.nextRef], nextRef := h.nextRef + 1 })
    else
      (none, emit (Step.NewGlobalRef (some c) none) h)

/-- Call `env->DeleteGlobalRef(ref)`. -/
def DeleteGlobalRef (ref : Nat) (h : Host) : Host :=
  emit (Step.DeleteGlobalRef ref)
    { h with liveRefs := h.liveRefs.erase ref, deleted := h.deleted ++ [ref] }

/-- Call `SDL_CreateThread(loveThreadFunc, name, nullptr)`: null on failure
(`ok = false`), else a fresh thread that starts running. -/
def SDL_CreateThread (name : String) (ok : Bool) (h : Host) : Option Nat × Host :=
  if ok then
    (some h.nextThread,
      emit (Step.SDL_CreateThread name (some h.nextThread))
        { h with running := h.running ++ [h.nextThread], nextThread := h.nextThread + 1 })
  else
    (none, emit (Step.SDL_CreateThread name none) h)

/-- Call `SDL_WaitThread(thread, &status)`: returns once the thread function
has returned; the caller had to wait exactly when the thread was still running. -/
def SDL_WaitThread (thread : Nat) (h : Host) : Host :=
  emit (Step.SDL_WaitThread thread (decide (thread ∈ h.running)))
    { h with running := h.running.erase thread }

/-! ## `love::android::fragment` -/

/-- Function `init(JNIEnv *env, jobject context, const char *path)`.
`vm` is what `env->GetJavaVM(&javaVM)` leaves in `javaVM`: `some env.vm` when
the call succeeds, and whatever a failing call leaves there (`none` for null)
otherwise; the source ignores the call's return code.  `refOk` and `threadOk`
are the outcomes of `NewGlobalRef` and `SDL_CreateThread`. -/
def init (env : JNIEnv) (vm : Option Nat) (context : Option Nat) (path : String)
    (refOk threadOk : Bool) (w : World) : World :=
  if w.session.loveThread ≠ none then
    { w with host := SDL_Log "Love2D: init called but already running" w.host }
  else
    let s := w.session
    let h := w.host
    -- env->GetJavaVM(&javaVM);
    let s := { s with javaVM := vm }
    let h := emit (Step.GetJavaVM vm) h
    -- activityRef = env->NewGlobalRef(context);
    let (ref, h) := NewGlobalRef context refOk h
    let s := { s with activityRef := ref }
    let h := emit (Step.set_activityRef ref) h
    -- lovePath = path;
    let s := { s with lovePath := path }
    let h := emit (Step.set_lovePath path) h
    -- quitRequested = false;
    let s := { s with quitRequested := false }
    let h := emit (Step.set_quitRequested false) h
    -- loveThread = SDL_CreateThread(loveThreadFunc, "LoveMain", nullptr);
    let (t, h) := SDL_CreateThread "LoveMain" threadOk h
    let s := { s with loveThread := t }
    let h := emit (Step.set_loveThread t) h
    if t = none then
      { session := s, host := SDL_Log "Love2D: Failed to create thread: %s" h }
    else
      { session := s, host := h }

/-- Function `pause()`. -/
def pause (w : World) : World :=
  let event : SDL_Event := {}
  let event := { event with type := SDL_EventType.SDL_EVENT_WINDOW_MINIMIZED }
  let event := { event with windowID := 1 }
  { w with host := SDL_PushEvent event w.host }

/-- Function `resume()`. -/
def resume (w : World) : World :=
  let event : SDL_Event := {}
  let event := { event with type := SDL_EventType.SDL_EVENT_WINDOW_RESTORED }
  let event := { event with windowID := 1 }
  { w with host := SDL_PushEvent event w.host }

/-- Function `quit()`.  `env` is what `javaVM->GetEnv` stores: `none` when the
calling thread is not attached to the VM. -/
def quit (env : Option JNIEnv) (w : World) : World :=
  let s := w.session
  let h := w.host
  -- quitRequested = true;
  let s := { s with quitRequested := true }
  let h := emit (Step.set_quitRequested true) h
  let event : SDL_Event := {}
  let event := { event with type := SDL_EventType.SDL_EVENT_QUIT }
  let h := SDL_PushEvent event h
  -- if (loveThread != nullptr) { SDL_WaitThread(...); loveThread = nullptr; }
  let (s, h) :=
    match s.loveThread with
    | some t =>
      let h := SDL_WaitThread t h
      ({ s with loveThread := none }, emit (Step.set_loveThread none) h)
    | none => (s, h)
  -- if (activityRef != nullptr && javaVM != nullptr) { ... }
  let (s, h) :=
    match s.activityRef, s.javaVM with
    | some ref, some _ =>
      let h := emit (Step.GetEnv env.isSome) h
      let h := if env ≠ none then DeleteGlobalRef ref h else h
      ({ s with activityRef := none }, emit (Step.set_activityRef none) h)
    | _, _ => (s, h)
  -- javaVM = nullptr; lovePath.clear();
  let s := { s with javaVM := none }
  let h := emit (Step.set_javaVM none) h
  let s := { s with lovePath := "" }
  let h := emit (Step.set_lovePath "") h
  { session := s, host := h }

/-- Function `isActive()`. -/
def isActive (w : World) : Bool :=
  w.session.loveThread ≠ none || w.session.activityRef ≠ none

/-- Function `getJavaVM()`. -/
def getJavaVM (w : World) : Option Nat :=
  w.session.javaVM

/-- Function `getActivity()`. -/
def getActivity (w : World) : Option Nat :=
  w.session.activityRef

/-! ## The worker thread -/

/-- One call into the Lua C API (or LÖVE's `luax_resume` wrapper). -/
inductive LuaCall where
  | luaL_newstate
  | luaL_openlibs
  | lua_getglobal (name : String)
  | lua_getfield (idx : Int) (k : String)
  | lua_pushcfunction (f : String)
  | lua_setfield (idx : Int) (k : String)
  | lua_pop (n : Int)
  | lua_pushstring (s : String)
  | lua_call (nargs nresults : Int)
  | lua_newtable
  | lua_rawseti (idx : Int) (n : Int)
  | lua_setglobal (name : String)
  | lua_pushboolean (b : Int)
  | lua_pushnil
  | lua_newthread
  | lua_pushvalue (idx : Int)
  | lua_gettop
  | luax_resume (nargs : Int)
  | lua_close
  deriving DecidableEq, Repr

/-- Status code `LUA_YIELD` of `lua.h`. -/
def LUA_YIELD : Int := 1

/-- What one `luax_resume(L, 0, &nres)` reports: the status it returns, the
result count it stores in `nres`, and the stack height `lua_gettop(L)` would
read afterwards. -/
structure Resumption where
  status : Int
  nres : Int
  top : Int
  deriving DecidableEq, Repr

/-- Helper `love_preload(L, f, name)`; the calls it makes, in order. -/
def love_preload (f : String) (name : String) : List LuaCall :=
  [ LuaCall.lua_getglobal "package",
    LuaCall.lua_getfield (-1) "preload",
    LuaCall.lua_pushcfunction f,
    LuaCall.lua_setfield (-2) name,
    LuaCall.lua_pop 2 ]

/-- The loop `for (int i = 1; i < argc; i++)` of `loveThreadFunc`, from index `i`. -/
def argLoop (argv : List String) (argc : Nat) (i : Nat) : List LuaCall :=
  if i < argc then
    [ LuaCall.lua_pushstring (argv.getD i ""), LuaCall.lua_rawseti (-2) i ]
      ++ argLoop argv argc (i + 1)
  else
    []
termination_by argc - i

/-- The loop `while (love::luax_resume(L, 0, &nres) == LUA_YIELD)` of
`loveThreadFunc`; `boot k` is what the `k`-th resumption reports.  The body
is `lua_pop(L, nres)` from Lua 5.4 on and `lua_pop(L, lua_gettop(L) - stackpos)`
before.  `none` when `fuel` resumptions all yielded. -/
def bootLoop (LUA_VERSION_NUM : Nat) (boot : Nat → Resumption) (stackpos : Int) :
    Nat → Nat → Option (List LuaCall)
  | 0, _ => none
  | fuel + 1, k =>
    if (boot k).status = LUA_YIELD then
      let body :=
        if LUA_VERSION_NUM ≥ 504 then
          [ LuaCall.lua_pop (boot k).nres ]
        else
          [ LuaCall.lua_gettop, LuaCall.lua_pop ((boot k).top - stackpos) ]
      (bootLoop LUA_VERSION_NUM boot stackpos fuel (k + 1)).map
        (fun rest => LuaCall.luax_resume 0 :: body ++ rest)
    else
      some [ LuaCall.luax_resume 0 ]

/-- Function `loveThreadFunc(void *data)`: its return value and the Lua calls
it makes, in order.  `lovePath` is the static it reads, `stackpos` is what
`lua_gettop(L)` reads before the loop. -/
def loveThreadFunc (LUA_VERSION_NUM : Nat) (boot : Nat → Resumption) (stackpos : Int)
    (lovePath : String) (fuel : Nat) : Option (Int × List LuaCall) :=
  -- const char *argv[] = {"love", lovePath.c_str(), nullptr}; int argc = 2;
  let argv : List String := ["love", lovePath]
  let argc : Nat := 2
  let setup : List LuaCall :=
    [ LuaCall.luaL_newstate, LuaCall.luaL_openlibs ]
    ++ love_preload "luaopen_love_jitsetup" "love.jitsetup"
    ++ [ LuaCall.lua_getglobal "require",
         LuaCall.lua_pushstring "love.jitsetup",
         LuaCall.lua_call 1 0 ]
    ++ love_preload "luaopen_love" "love"
    -- arg table
    ++ [ LuaCall.lua_newtable,
         LuaCall.lua_pushstring (argv.getD 0 ""),
         LuaCall.lua_rawseti (-2) (-2),
         LuaCall.lua_pushstring "embedded boot.lua",
         LuaCall.lua_rawseti (-2) (-1) ]
    ++ argLoop argv argc 1
    ++ [ LuaCall.lua_setglobal "arg" ]
    -- require "love"
    ++ [ LuaCall.lua_getglobal "require",
         LuaCall.lua_pushstring "love",
         LuaCall.lua_call 1 1 ]
    ++ [ LuaCall.lua_pushboolean 1,
         LuaCall.lua_setfield (-2) "_exe" ]
    ++ [ LuaCall.lua_pushnil,
         LuaCall.lua_setfield (-2) "restart" ]
    ++ [ LuaCall.lua_pop 1 ]
    -- require "love.boot"
    ++ [ LuaCall.lua_getglobal "require",
         LuaCall.lua_pushstring "love.boot",
         LuaCall.lua_call 1 1 ]
    -- the boot coroutine
    ++ [ LuaCall.lua_newthread,
         LuaCall.lua_pushvalue (-2),
         LuaCall.lua_gettop ]
  match bootLoop LUA_VERSION_NUM boot stackpos fuel 0 with
  | none => none
  | some loop => some (0, setup ++ loop ++ [ LuaCall.lua_close ])

/-- The worker thread `t` runs `loveThreadFunc` to its return.  The function
writes none of the statics, so only the host's set of running threads changes. -/
def threadReturn (t : Nat) (w : World) : World :=
  { w with host := { w.host with running := w.host.running.erase t } }

/-- The worker thread `t` executes `loveThreadFunc` on the current statics;
`none` when the boot sequence has not finished within `fuel` resumptions. -/
def runWorker (t : Nat) (LUA_VERSION_NUM : Nat) (boot : Nat → Resumption) (stackpos : Int)
    (fuel : Nat) (w : World) : Option World :=
  (loveThreadFunc LUA_VERSION_NUM boot stackpos w.session.lovePath fuel).map
    (fun _ => threadReturn t w)

/-! ## Call sequences -/

/-- One thing that can happen to the session: a call of the public interface
with the outcomes the collaborators give it, or the worker thread returning. -/
inductive Op where
  | init (env : JNIEnv) (vm : Option Nat) (context : Option Nat) (path : String)
      (refOk threadOk : Bool)
  | pause
  | resume
  | quit (env : Option JNIEnv)
  | threadReturn (t : Nat)
  deriving DecidableEq, Repr

/-- Effect of one `Op`. -/
def Op.apply : Op → World → World
  | Op.init env vm context path refOk threadOk, w =>
    fragment.init env vm context path refOk threadOk w
  | Op.pause, w => fragment.pause w
  | Op.resume, w => fragment.resume w
  | Op.quit env, w => fragment.quit env w
  | Op.threadReturn t, w => fragment.threadReturn t w

/-- Effect of a sequence of `Op`s, first to last. -/
def run (ops : List Op) (w : World) : World :=
  ops.foldl (fun w op => op.apply w) w

/-! ## Vocabulary of the statements -/

/-- The event `pause` posts. -/
def minimizeEvent : SDL_Event :=
  { type := SDL_EventType.SDL_EVENT_WINDOW_MINIMIZED, windowID := 1 }

/-- The event `resume` posts. -/
def restoreEvent : SDL_Event :=
  { type := SDL_EventType.SDL_EVENT_WINDOW_RESTORED, windowID := 1 }

/-- The event `quit` posts: only the type is written, the rest stays zero. -/
def quitEvent : SDL_Event :=
  { type := SDL_EventType.SDL_EVENT_QUIT, windowID := 0 }

/-- The calls of one pass through the body of the resume loop, after the
`i`-th resumption yielded: they pop what that resumption left on the stack. -/
def discardYield (LUA_VERSION_NUM : Nat) (boot : Nat → Resumption) (stackpos : Int)
    (i : Nat) : List LuaCall :=
  if LUA_VERSION_NUM ≥ 504 then
    [ LuaCall.lua_pop (boot i).nres ]
  else
    [ LuaCall.lua_gettop, LuaCall.lua_pop ((boot i).top - stackpos) ]

/-- A step of a call sequence in which `GetJavaVM` stores a VM, thread
creation succeeds and `quit` is called on a thread attached to the VM. -/
def Op.nominal : Op → Bool
  | Op.init _ vm _ _ _ threadOk => vm.isSome && threadOk
  | Op.quit env => env.isSome
  | _ => true

/-- Facts that hold in every state a call sequence reaches from process start. -/
structure Inv (w : World) : Prop where
  running_lt : ∀ t ∈ w.host.running, t < w.host.nextThread
  running_nodup : w.host.running.Nodup
  deleted_lt : ∀ r ∈ w.host.deleted, r < w.host.nextRef
  deleted_nodup : w.host.deleted.Nodup
  ref_fresh : ∀ r, w.session.activityRef = some r →
    r < w.host.nextRef ∧ r ∉ w.host.deleted

/-- Facts that hold in every state reached by a sequence of nominal steps:
the cached reference is the only live one, and it is held only while the
thread handle is. -/
structure Tidy (w : World) : Prop where
  live : w.host.liveRefs = w.session.activityRef.toList
  held : w.session.loveThread = none → w.session.activityRef = none
  vm_of_ref : w.session.activityRef ≠ none → w.session.javaVM ≠ none

/-! ## Event injection -/

theorem pause_eq (w : World) :
    pause w = { w with host := SDL_PushEvent minimizeEvent w.host } := rfl

theorem resume_eq (w : World) :
    resume w = { w with host := SDL_PushEvent restoreEvent w.host } := rfl

theorem quit_queue (env : Option JNIEnv) (w : World) :
    (quit env w).host.queue = w.host.queue ++ [quitEvent] := by
  obtain ⟨⟨lt, lp, qr, vm, ar⟩, h⟩ := w
  cases lt <;> cases ar <;> cases vm <;> cases env <;>
    simp [quit, emit, SDL_PushEvent, SDL_WaitThread, DeleteGlobalRef, quitEvent]

/-- C7 (as stated, refuted): the event that `quit` posts from the initial
state has windowID 0, so not every injected event carries the sentinel 1. -/
theorem quit_event_lacks_sentinel :
    (quit none World.initial).host.queue = [quitEvent] ∧
    quitEvent.windowID = 0 ∧
    ¬ (∀ e ∈ (quit none World.initial).host.queue, e.windowID = 1) := by
  decide

/-- C7 (amended): in every state `pause` posts exactly one minimize event and
`resume` exactly one restore event, both with windowID 1, and `quit` posts
exactly one quit event, whose windowID is left at 0. -/
theorem lifecycle_events_posted (env : Option JNIEnv) (w : World) :
    ((pause w).host.queue = w.host.queue ++ [minimizeEvent] ∧
      (pause w).host.trace = w.host.trace ++ [Step.SDL_PushEvent minimizeEvent] ∧
      minimizeEvent.windowID = 1) ∧
    ((resume w).host.queue = w.host.queue ++ [restoreEvent] ∧
      (resume w).host.trace = w.host.trace ++ [Step.SDL_PushEvent restoreEvent] ∧
      restoreEvent.windowID = 1) ∧
    ((quit env w).host.queue = w.host.queue ++ [quitEvent] ∧
      quitEvent.type = SDL_EventType.SDL_EVENT_QUIT ∧ quitEvent.windowID = 0) := by
  refine ⟨⟨rfl, rfl, rfl⟩, ⟨rfl, rfl, rfl⟩, quit_queue env w, rfl, rfl⟩

/-- C8: from any queue contents and any session state, `pause` followed at
once by `resume` leaves the queue extended by the minimize event and then the
restore event, and leaves every static of the session unchanged. -/
theorem pause_resume_fifo (w : World) :
    (resume (pause w)).host.queue = w.host.queue ++ [minimizeEvent, restoreEvent] ∧
    (resume (pause w)).session = w.session := by
  constructor
  · simp [pause_eq, resume_eq, SDL_PushEvent, emit]
  · rfl

/-! ## `init` -/

theorem init_running (env : JNIEnv) (vm : Option Nat) (context : Option Nat) (path : String)
    (refOk threadOk : Bool) (w : World) (h : w.session.loveThread ≠ none) :
    init env vm context path refOk threadOk w =
      { w with host := SDL_Log "Love2D: init called but already running" w.host } := by
  simp [init, h]

theorem init_spawns (env : JNIEnv) (vm : Option Nat) (context : Option Nat) (path : String)
    (refOk : Bool) (w : World) (h : w.session.loveThread = none) :
    (init env vm context path refOk true w).session.loveThread = some w.host.nextThread ∧
    (init env vm context path refOk true w).host.running =
      w.host.running ++ [w.host.nextThread] ∧
    (init env vm context path refOk true w).host.nextThread = w.host.nextThread + 1 := by
  obtain ⟨⟨lt, lp, qr, jvm, ar⟩, hst⟩ := w
  simp only at h
  subst h
  cases context <;> cases refOk <;>
    simp [init, emit, NewGlobalRef, SDL_CreateThread, SDL_Log]

/-- C2: when the worker-thread handle is non-null, `init` changes no static
and nothing in the host except for one log line (no reference is acquired,
no thread is created); hence a successful `init` followed by a second `init`
leaves exactly the one worker thread of the first. -/
theorem init_while_running_is_noop (env env2 : JNIEnv) (vm vm2 context context2 : Option Nat)
    (path path2 : String) (refOk refOk2 threadOk threadOk2 : Bool) (w : World) :
    (w.session.loveThread ≠ none →
      (init env vm context path refOk threadOk w).session = w.session ∧
      (init env vm context path refOk threadOk w).host.trace =
        w.host.trace ++ [Step.SDL_Log "Love2D: init called but already running"] ∧
      (init env vm context path refOk threadOk w).host.running = w.host.running ∧
      (init env vm context path refOk threadOk w).host.nextThread = w.host.nextThread ∧
      (init env vm context path refOk threadOk w).host.liveRefs = w.host.liveRefs ∧
      (init env vm context path refOk threadOk w).host.deleted = w.host.deleted ∧
      (init env vm context path refOk threadOk w).host.nextRef = w.host.nextRef ∧
      (init env vm context path refOk threadOk w).host.queue = w.host.queue) ∧
    (w.session.loveThread = none →
      (init env2 vm2 context2 path2 refOk2 threadOk2
          (init env vm context path refOk true w)).session =
        (init env vm context path refOk true w).session ∧
      (init env2 vm2 context2 path2 refOk2 threadOk2
          (init env vm context path refOk true w)).host.running =
        w.host.running ++ [w.host.nextThread] ∧
      (init env2 vm2 context2 path2 refOk2 threadOk2
          (init env vm context path refOk true w)).host.liveRefs =
        (init env vm context path refOk true w).host.liveRefs) := by
  constructor
  · intro h
    rw [init_running env vm context path refOk threadOk w h]
    simp [SDL_Log, emit]
  · intro h
    obtain ⟨h1, h2, _⟩ := init_spawns env vm context path refOk w h
    have hne : (init env vm context path refOk true w).session.loveThread ≠ none := by
      rw [h1]; simp
    rw [init_running env2 vm2 context2 path2 refOk2 threadOk2 _ hne]
    simp [SDL_Log, emit, h2]

theorem init_while_running_is_noop_witness :
    (init ⟨1⟩ (some 1) (some 7) "game.love" true true World.initial).session.loveThread ≠ none ∧
    (init ⟨2⟩ (some 2) (some 8) "other.love" true true
        (init ⟨1⟩ (some 1) (some 7) "game.love" true true World.initial)).session =
      (init ⟨1⟩ (some 1) (some 7) "game.love" true true World.initial).session ∧
    (init ⟨2⟩ (some 2) (some 8) "other.love" true true
        (init ⟨1⟩ (some 1) (some 7) "game.love" true true World.initial)).host.running = [0] :=
  have hw : (init ⟨1⟩ (some 1) (some 7) "game.love" true true World.initial).session.loveThread
      ≠ none := by decide
  ⟨hw,
    ((init_while_running_is_noop ⟨2⟩ ⟨2⟩ (some 2) (some 2) (some 8) (some 8)
      "other.love" "other.love"
      true true true true
      (init ⟨1⟩ (some 1) (some 7) "game.love" true true World.initial)).1 hw).1,
    by decide⟩

/-- C1 (evaluation at the failing input): after `init` from the initial state
with `GetJavaVM` and `NewGlobalRef` succeeding and `SDL_CreateThread` returning null, the thread
handle is null but the global reference is still held and cached, the VM is
still cached, and `isActive` returns true. -/
theorem init_thread_failure_keeps_handles :
    (init ⟨1⟩ (some 1) (some 7) "game.love" true false World.initial).session.loveThread = none ∧
    getActivity (init ⟨1⟩ (some 1) (some 7) "game.love" true false World.initial) = some 0 ∧
    getJavaVM (init ⟨1⟩ (some 1) (some 7) "game.love" true false World.initial) = some 1 ∧
    isActive (init ⟨1⟩ (some 1) (some 7) "game.love" true false World.initial) = true ∧
    (init ⟨1⟩ (some 1) (some 7) "game.love" true false World.initial).host.liveRefs = [0] ∧
    (init ⟨1⟩ (some 1) (some 7) "game.love" true false World.initial).host.deleted = [] := by
  decide

/-! ## `quit` -/

theorem quit_inactive (env : Option JNIEnv) (w : World)
    (ht : w.session.loveThread = none) (ha : w.session.activityRef = none) :
    quit env w =
      { session := { w.session with quitRequested := true, javaVM := none, lovePath := "" },
        host := emit (Step.set_lovePath "") (emit (Step.set_javaVM none)
          (SDL_PushEvent quitEvent (emit (Step.set_quitRequested true) w.host))) } := by
  obtain ⟨⟨lt, lp, qr, vm, ar⟩, h⟩ := w
  simp only at ht ha
  subst ht ha
  simp [quit, quitEvent]

theorem quit_running (env : Option JNIEnv) (w : World) (t r vm : Nat)
    (ht : w.session.loveThread = some t) (ha : w.session.activityRef = some r)
    (hv : w.session.javaVM = some vm) :
    quit env w =
      { session := { loveThread := none, lovePath := "", quitRequested := true,
                     javaVM := none, activityRef := none },
        host := emit (Step.set_lovePath "") (emit (Step.set_javaVM none)
          (emit (Step.set_activityRef none)
            ((fun h => if env ≠ none then DeleteGlobalRef r h else h)
              (emit (Step.GetEnv env.isSome)
                (emit (Step.set_loveThread none)
                  (SDL_WaitThread t
                    (SDL_PushEvent quitEvent
                      (emit (Step.set_quitRequested true) w.host)))))))) } := by
  obtain ⟨⟨lt, lp, qr, jvm, ar⟩, h⟩ := w
  simp only at ht ha hv
  subst ht ha hv
  simp [quit, quitEvent]

theorem quit_session (env : Option JNIEnv) (w : World) :
    (quit env w).session.loveThread = none ∧
    (quit env w).session.javaVM = none ∧
    (quit env w).session.lovePath = "" ∧
    (quit env w).session.quitRequested = true ∧
    ((quit env w).session.activityRef = none ∨
      ((quit env w).session.activityRef = w.session.activityRef ∧
        w.session.javaVM = none)) := by
  obtain ⟨⟨lt, lp, qr, vm, ar⟩, h⟩ := w
  cases lt <;> cases ar <;> cases vm <;> simp [quit]

theorem quit_no_vm (env : Option JNIEnv) (w : World)
    (ht : w.session.loveThread = none) (hv : w.session.javaVM = none) :
    (quit env w).host.trace = w.host.trace ++
      [ Step.set_quitRequested true, Step.SDL_PushEvent quitEvent,
        Step.set_javaVM none, Step.set_lovePath "" ] ∧
    (quit env w).host.deleted = w.host.deleted ∧
    (quit env w).host.liveRefs = w.host.liveRefs := by
  obtain ⟨⟨lt, lp, qr, vm, ar⟩, h⟩ := w
  simp only at ht hv
  subst ht hv
  cases ar <;> simp [quit, quitEvent, emit, SDL_PushEvent]

/-- C6 (as stated, refuted): after an `init` with a null context whose thread
creation failed, the thread handle and the context handle are both null, yet
`quit` changes the cached VM handle and the resource path. -/
theorem quit_inactive_changes_vm_and_path :
    (init ⟨1⟩ (some 1) none "game.love" true false World.initial).session.loveThread = none ∧
    (init ⟨1⟩ (some 1) none "game.love" true false World.initial).session.activityRef = none ∧
    (init ⟨1⟩ (some 1) none "game.love" true false World.initial).session.javaVM = some 1 ∧
    (quit none (init ⟨1⟩ (some 1) none "game.love" true false World.initial)).session.javaVM
      = none ∧
    (init ⟨1⟩ (some 1) none "game.love" true false World.initial).session.lovePath
      = "game.love" ∧
    (quit none (init ⟨1⟩ (some 1) none "game.love" true false World.initial)).session.lovePath
      = "" := by
  decide

/-- C6 (amended): when the thread handle and the context handle are null,
`quit` joins no thread and attempts no release: it sets the quit flag, posts
the quit event, and resets the VM handle to null and the resource path to
empty (so nothing but the flag changes if they already were); the thread
handle and context handle stay null.  From any state, a second `quit` in a
row does just those four steps and releases nothing. -/
theorem quit_when_inactive (env env2 : Option JNIEnv) (w : World) :
    (w.session.loveThread = none → w.session.activityRef = none →
      (quit env w).host.trace = w.host.trace ++
        [ Step.set_quitRequested true, Step.SDL_PushEvent quitEvent,
          Step.set_javaVM none, Step.set_lovePath "" ] ∧
      (quit env w).session =
        { w.session with quitRequested := true, javaVM := none, lovePath := "" } ∧
      (quit env w).host.deleted = w.host.deleted ∧
      (quit env w).host.liveRefs = w.host.liveRefs ∧
      (quit env w).host.running = w.host.running) ∧
    ((quit env2 (quit env w)).host.trace = (quit env w).host.trace ++
        [ Step.set_quitRequested true, Step.SDL_PushEvent quitEvent,
          Step.set_javaVM none, Step.set_lovePath "" ] ∧
      (quit env2 (quit env w)).host.deleted = (quit env w).host.deleted ∧
      (quit env2 (quit env w)).host.liveRefs = (quit env w).host.liveRefs) := by
  constructor
  · intro ht ha
    rw [quit_inactive env w ht ha]
    simp [emit, SDL_PushEvent]
  · obtain ⟨h1, h2, _⟩ := quit_session env w
    exact quit_no_vm env2 (quit env w) h1 h2

theorem quit_when_inactive_witness :
    World.initial.session.loveThread = none ∧
    World.initial.session.activityRef = none ∧
    (quit none World.initial).session =
      { World.initial.session with quitRequested := true, javaVM := none, lovePath := "" } ∧
    (quit none World.initial).host.deleted = [] :=
  ⟨rfl, rfl,
    ((quit_when_inactive none none World.initial).1 rfl rfl).2.1,
    ((quit_when_inactive none none World.initial).1 rfl rfl).2.2.1⟩

/-- C4 (as stated, refuted): on the running session a successful `init`
produced, a `quit` whose `GetEnv` finds the calling thread detached deletes
no global reference: the acquired reference 0 stays live and is never
passed to `DeleteGlobalRef`. -/
theorem quit_detached_releases_nothing :
    (init ⟨1⟩ (some 1) (some 7) "game.love" true true World.initial).session.loveThread = some 0 ∧
    (init ⟨1⟩ (some 1) (some 7) "game.love" true true World.initial).session.activityRef = some 0 ∧
    (quit none (init ⟨1⟩ (some 1) (some 7) "game.love" true true World.initial)).host.deleted = [] ∧
    (quit none (init ⟨1⟩ (some 1) (some 7) "game.love" true true World.initial)).host.liveRefs = [0] ∧
    Step.DeleteGlobalRef 0 ∉
      (quit none (init ⟨1⟩ (some 1) (some 7) "game.love" true true World.initial)).host.trace := by
  decide

/-- C4 (amended): on a session holding thread `t`, reference `r` and a VM,
`quit` sets the quit flag, posts the quit event, joins `t`, and only then
queries `GetEnv`, deletes `r` exactly once when the calling thread is
attached (and not at all when it is detached), and clears the cached
handles and the resource path. -/
theorem quit_running_order (env : Option JNIEnv) (w : World) (t r vm : Nat)
    (ht : w.session.loveThread = some t) (ha : w.session.activityRef = some r)
    (hv : w.session.javaVM = some vm) :
    (quit env w).host.trace = w.host.trace ++
      [ Step.set_quitRequested true, Step.SDL_PushEvent quitEvent,
        Step.SDL_WaitThread t (decide (t ∈ w.host.running)),
        Step.set_loveThread none, Step.GetEnv env.isSome ] ++
      (if env.isSome then [ Step.DeleteGlobalRef r ] else []) ++
      [ Step.set_activityRef none, Step.set_javaVM none, Step.set_lovePath "" ] ∧
    (quit env w).host.deleted = w.host.deleted ++ (if env.isSome then [r] else []) ∧
    (quit env w).host.liveRefs =
      (if env.isSome then w.host.liveRefs.erase r else w.host.liveRefs) ∧
    (quit env w).session =
      { loveThread := none, lovePath := "", quitRequested := true,
        javaVM := none, activityRef := none } := by
  rw [quit_running env w t r vm ht ha hv]
  cases env <;> simp [emit, SDL_PushEvent, SDL_WaitThread, DeleteGlobalRef]

theorem quit_running_order_witness :
    (init ⟨1⟩ (some 1) (some 7) "game.love" true true World.initial).session.loveThread = some 0 ∧
    (quit (some ⟨1⟩) (init ⟨1⟩ (some 1) (some 7) "game.love" true true World.initial)).host.deleted
      = (init ⟨1⟩ (some 1) (some 7) "game.love" true true World.initial).host.deleted ++
          (if (some (⟨1⟩ : JNIEnv)).isSome then [0] else []) :=
  ⟨by decide,
    (quit_running_order (some ⟨1⟩) (init ⟨1⟩ (some 1) (some 7) "game.love" true true World.initial)
      0 0 1 (by decide) (by decide) (by decide)).2.1⟩


/-! ## Invariants of call sequences -/

theorem Inv_initial : Inv World.initial := by
  constructor <;> simp [World.initial]

theorem Inv_init (env : JNIEnv) (vm : Option Nat) (context : Option Nat) (path : String)
    (refOk threadOk : Bool) (w : World) (hw : Inv w) :
    Inv (init env vm context path refOk threadOk w) := by
  obtain ⟨⟨lt, lp, qr, jvm, ar⟩, ⟨q, rn, nt, lr, dl, nr, tr⟩⟩ := w
  obtain ⟨h2, h3, h4, h5, h6⟩ := hw
  simp only at h2 h3 h4 h5 h6
  have hnt : nt ∉ rn := fun h => Nat.lt_irrefl _ (h2 nt h)
  have hnr : nr ∉ dl := fun h => Nat.lt_irrefl _ (h4 nr h)
  have h2s : ∀ t ∈ rn, t < nt + 1 := fun t h => Nat.lt_succ_of_lt (h2 t h)
  have h4s : ∀ r ∈ dl, r < nr + 1 := fun r h => Nat.lt_succ_of_lt (h4 r h)
  cases lt <;> cases context <;> cases refOk <;> cases threadOk <;>
    (constructor <;>
      simp_all [init, emit, NewGlobalRef, SDL_CreateThread, SDL_Log, List.nodup_append]) <;>
    (rintro t (h | rfl); exacts [h2s t h, Nat.lt_succ_self _])

theorem Inv_pause (w : World) (hw : Inv w) : Inv (pause w) := by
  obtain ⟨h2, h3, h4, h5, h6⟩ := hw
  constructor <;> simpa [pause, SDL_PushEvent, emit]

theorem Inv_resume (w : World) (hw : Inv w) : Inv (resume w) := by
  obtain ⟨h2, h3, h4, h5, h6⟩ := hw
  constructor <;> simpa [resume, SDL_PushEvent, emit]

theorem Inv_threadReturn (t : Nat) (w : World) (hw : Inv w) : Inv (threadReturn t w) := by
  obtain ⟨h2, h3, h4, h5, h6⟩ := hw
  constructor
  · intro x hx
    exact h2 x (List.mem_of_mem_erase hx)
  · exact h3.erase t
  · simpa [threadReturn] using h4
  · simpa [threadReturn] using h5
  · simpa [threadReturn] using h6

theorem Inv_quit (env : Option JNIEnv) (w : World) (hw : Inv w) : Inv (quit env w) := by
  obtain ⟨⟨lt, lp, qr, jvm, ar⟩, ⟨q, rn, nt, lr, dl, nr, tr⟩⟩ := w
  obtain ⟨h2, h3, h4, h5, h6⟩ := hw
  simp only at h2 h3 h4 h5 h6
  have he : ∀ x t, t ∈ rn.erase x → t < nt := fun x t h => h2 t (List.mem_of_mem_erase h)
  have hn : ∀ x, (rn.erase x).Nodup := fun x => h3.erase x
  cases lt <;> cases ar <;> cases jvm <;> cases env <;>
    (constructor <;>
      simp_all [quit, emit, SDL_PushEvent, SDL_WaitThread, DeleteGlobalRef,
        List.nodup_append]) <;>
    first
      | exact he _
      | (rintro r (h | rfl)
         · exact h4 r h
         · exact h6.1)

theorem Inv_apply (op : Op) (w : World) (hw : Inv w) : Inv (op.apply w) := by
  cases op with
  | init env vm context path refOk threadOk =>
    exact Inv_init env vm context path refOk threadOk w hw
  | pause => exact Inv_pause w hw
  | resume => exact Inv_resume w hw
  | quit env => exact Inv_quit env w hw
  | threadReturn t => exact Inv_threadReturn t w hw

theorem Inv_run (ops : List Op) : ∀ w : World, Inv w → Inv (run ops w) := by
  induction ops with
  | nil => intro w hw; exact hw
  | cons op ops ih =>
    intro w hw
    exact ih (op.apply w) (Inv_apply op w hw)

theorem Tidy_initial : Tidy World.initial := by
  constructor <;> simp [World.initial]

theorem Tidy_apply (op : Op) (w : World) (hop : op.nominal = true) (hw : Tidy w) :
    Tidy (op.apply w) := by
  obtain ⟨⟨lt, lp, qr, jvm, ar⟩, ⟨q, rn, nt, lr, dl, nr, tr⟩⟩ := w
  obtain ⟨h1, h2, h3⟩ := hw
  simp only at h1 h2 h3
  cases op with
  | init env vm context path refOk threadOk =>
    simp only [Op.nominal, Bool.and_eq_true] at hop
    obtain ⟨hvm, hth⟩ := hop
    subst hth
    cases vm with
    | none => simp at hvm
    | some v =>
      cases lt <;> cases context <;> cases refOk <;>
        (constructor <;>
          simp_all [Op.apply, init, emit, NewGlobalRef, SDL_CreateThread, SDL_Log])
  | pause => constructor <;> simpa [Op.apply, pause, SDL_PushEvent, emit]
  | resume => constructor <;> simpa [Op.apply, resume, SDL_PushEvent, emit]
  | quit env =>
    cases env with
    | none => simp [Op.nominal] at hop
    | some e =>
      cases lt <;> cases ar <;> cases jvm <;>
        (constructor <;>
          simp_all [Op.apply, quit, emit, SDL_PushEvent, SDL_WaitThread, DeleteGlobalRef])
  | threadReturn t => constructor <;> simpa [Op.apply, threadReturn]

theorem Tidy_run (ops : List Op) :
    ∀ w : World, (∀ op ∈ ops, op.nominal = true) → Tidy w → Tidy (run ops w) := by
  induction ops with
  | nil => intro w _ hw; exact hw
  | cons op ops ih =>
    intro w hops hw
    exact ih (op.apply w) (fun o ho => hops o (List.mem_cons_of_mem _ ho))
      (Tidy_apply op w (hops op (List.mem_cons_self _ _)) hw)

/-- C5 (as stated, refuted): `init`, then a `quit` on a detached thread (the
reference is dropped without `DeleteGlobalRef`), then `init` again leaves two
global references live at once. -/
theorem two_live_refs_after_detached_quit :
    (run [Op.init ⟨1⟩ (some 1) (some 7) "game.love" true true, Op.quit none,
          Op.init ⟨1⟩ (some 1) (some 7) "game.love" true true] World.initial).host.liveRefs
      = [0, 1] ∧
    (run [Op.init ⟨1⟩ (some 1) (some 7) "game.love" true true, Op.quit none,
          Op.init ⟨1⟩ (some 1) (some 7) "game.love" true true] World.initial).host.deleted
      = [] := by
  decide

/-- C5 (amended): along every call sequence no global reference is passed to
`DeleteGlobalRef` twice; and along every sequence in which each `init` has
`GetJavaVM` store a VM and its thread creation succeed, and each `quit` runs
on an attached thread, at most one acquired global reference is live at any
point. -/
theorem global_ref_discipline (ops : List Op) :
    (run ops World.initial).host.deleted.Nodup ∧
    ((∀ op ∈ ops, op.nominal = true) →
      (run ops World.initial).host.liveRefs.length ≤ 1) := by
  refine ⟨(Inv_run ops World.initial Inv_initial).deleted_nodup, fun hops => ?_⟩
  have ht := Tidy_run ops World.initial hops Tidy_initial
  rw [ht.live]
  cases (run ops World.initial).session.activityRef <;> simp

theorem global_ref_discipline_witness :
    (∀ op ∈ [Op.init ⟨1⟩ (some 1) (some 7) "game.love" true true, Op.quit (some ⟨1⟩),
               Op.init ⟨1⟩ (some 1) (some 8) "next.love" true true], op.nominal = true) ∧
    (run [Op.init ⟨1⟩ (some 1) (some 7) "game.love" true true, Op.quit (some ⟨1⟩),
          Op.init ⟨1⟩ (some 1) (some 8) "next.love" true true] World.initial).host.liveRefs.length
      ≤ 1 :=
  ⟨by decide,
    (global_ref_discipline [Op.init ⟨1⟩ (some 1) (some 7) "game.love" true true, Op.quit (some ⟨1⟩),
      Op.init ⟨1⟩ (some 1) (some 8) "next.love" true true]).2 (by decide)⟩


/-! ## The worker thread -/

theorem bootLoop_yields (ver : Nat) (boot : Nat → Resumption) (stackpos : Int) :
    ∀ (n k fuel : Nat), (∀ i < n, (boot (k + i)).status = LUA_YIELD) →
      (boot (k + n)).status ≠ LUA_YIELD → n < fuel →
      bootLoop ver boot stackpos fuel k =
        some ((List.range n).flatMap
            (fun i => LuaCall.luax_resume 0 :: discardYield ver boot stackpos (k + i))
          ++ [ LuaCall.luax_resume 0 ]) := by
  intro n
  induction n with
  | zero =>
    intro k fuel _ hd hf
    obtain ⟨f, rfl⟩ : ∃ f, fuel = f + 1 := ⟨fuel - 1, by omega⟩
    simp only [Nat.add_zero] at hd
    simp [bootLoop, hd]
  | succ n ih =>
    intro k fuel hy hd hf
    obtain ⟨f, rfl⟩ : ∃ f, fuel = f + 1 := ⟨fuel - 1, by omega⟩
    have h0 : (boot k).status = LUA_YIELD := by simpa using hy 0 (Nat.succ_pos n)
    have hrec := ih (k + 1) f
      (fun i hi => by
        have := hy (i + 1) (Nat.succ_lt_succ hi)
        rwa [show k + 1 + i = k + (i + 1) by omega])
      (by rwa [show k + 1 + n = k + (n + 1) by omega])
      (by omega)
    have hshift : ∀ i, k + 1 + i = k + (i + 1) := fun i => by omega
    simp only [bootLoop, h0, if_true, hrec, Option.map_some', List.range_succ_eq_map,
      List.flatMap_cons, List.flatMap_map, Nat.add_zero, Nat.succ_eq_add_one, hshift,
      discardYield]
    simp

theorem count_resume_rounds (ver : Nat) (boot : Nat → Resumption) (stackpos : Int) (n : Nat) :
    List.count (LuaCall.luax_resume 0)
      ((List.range n).flatMap
        (fun i => LuaCall.luax_resume 0 :: discardYield ver boot stackpos i)) = n ∧
    List.count LuaCall.lua_close
      ((List.range n).flatMap
        (fun i => LuaCall.luax_resume 0 :: discardYield ver boot stackpos i)) = 0 := by
  induction n with
  | zero => simp
  | succ n ih =>
    obtain ⟨ih1, ih2⟩ := ih
    rw [List.range_succ, List.flatMap_append, List.count_append, List.count_append, ih1, ih2]
    by_cases hv : ver ≥ 504 <;> simp [discardYield, hv]


/-- C10: for every resource path `p` and every boot sequence whose first `n`
resumptions yield and whose next one does not, `loveThreadFunc` (given more
than `n` units of fuel) returns 0 after these calls, in this order: the
interpreter is created, `love.jitsetup` is required, the `arg` table gets
"love" at -2 and `p` at 1, `love` is required, `_exe` is set and `restart`
cleared, `love.boot` is required, the coroutine is resumed `n + 1` times with
the yielded results popped after each of the first `n`, and the interpreter
is closed once. -/
theorem loveThreadFunc_boot_sequence (ver : Nat) (boot : Nat → Resumption) (stackpos : Int)
    (p : String) (n fuel : Nat)
    (hy : ∀ i < n, (boot i).status = LUA_YIELD)
    (hd : (boot n).status ≠ LUA_YIELD) (hf : n < fuel) :
    loveThreadFunc ver boot stackpos p fuel =
      some (0,
        [ LuaCall.luaL_newstate, LuaCall.luaL_openlibs,
          LuaCall.lua_getglobal "package", LuaCall.lua_getfield (-1) "preload",
          LuaCall.lua_pushcfunction "luaopen_love_jitsetup",
          LuaCall.lua_setfield (-2) "love.jitsetup", LuaCall.lua_pop 2,
          LuaCall.lua_getglobal "require", LuaCall.lua_pushstring "love.jitsetup",
          LuaCall.lua_call 1 0,
          LuaCall.lua_getglobal "package", LuaCall.lua_getfield (-1) "preload",
          LuaCall.lua_pushcfunction "luaopen_love",
          LuaCall.lua_setfield (-2) "love", LuaCall.lua_pop 2,
          LuaCall.lua_newtable,
          LuaCall.lua_pushstring "love", LuaCall.lua_rawseti (-2) (-2),
          LuaCall.lua_pushstring "embedded boot.lua", LuaCall.lua_rawseti (-2) (-1),
          LuaCall.lua_pushstring p, LuaCall.lua_rawseti (-2) 1,
          LuaCall.lua_setglobal "arg",
          LuaCall.lua_getglobal "require", LuaCall.lua_pushstring "love",
          LuaCall.lua_call 1 1,
          LuaCall.lua_pushboolean 1, LuaCall.lua_setfield (-2) "_exe",
          LuaCall.lua_pushnil, LuaCall.lua_setfield (-2) "restart",
          LuaCall.lua_pop 1,
          LuaCall.lua_getglobal "require", LuaCall.lua_pushstring "love.boot",
          LuaCall.lua_call 1 1,
          LuaCall.lua_newthread, LuaCall.lua_pushvalue (-2), LuaCall.lua_gettop ]
        ++ (List.range n).flatMap
            (fun i => LuaCall.luax_resume 0 :: discardYield ver boot stackpos i)
        ++ [ LuaCall.luax_resume 0, LuaCall.lua_close ]) ∧
    (∀ r tr, loveThreadFunc ver boot stackpos p fuel = some (r, tr) →
      r = 0 ∧ List.count (LuaCall.luax_resume 0) tr = n + 1 ∧
      List.count LuaCall.lua_close tr = 1) := by
  have hloop := bootLoop_yields ver boot stackpos n 0 fuel
    (fun i hi => by simpa using hy i hi) (by simpa using hd) hf
  simp only [Nat.zero_add] at hloop
  have hargs : argLoop ["love", p] 2 1 =
      [ LuaCall.lua_pushstring p, LuaCall.lua_rawseti (-2) 1 ] := by
    rw [argLoop]; simp
    rw [argLoop]; simp
  have aux : ∀ {A B : Prop}, A → (A → B) → A ∧ B := fun a f => ⟨a, f a⟩
  apply aux
  · simp only [loveThreadFunc, hloop, hargs, love_preload]
    simp
  · intro heq r tr h
    rw [heq] at h
    simp only [Option.some.injEq, Prod.mk.injEq] at h
    obtain ⟨rfl, rfl⟩ := h
    obtain ⟨c1, c2⟩ := count_resume_rounds ver boot stackpos n
    refine ⟨rfl, ?_, ?_⟩
    · simp only [List.count_append, c1, List.count_cons, List.count_nil, beq_iff_eq,
        reduceCtorEq, if_false, if_true, Nat.add_zero, Nat.zero_add]
    · simp only [List.count_append, c2, List.count_cons, List.count_nil, beq_iff_eq,
        reduceCtorEq, if_false, if_true, Nat.add_zero, Nat.zero_add]


theorem loveThreadFunc_boot_sequence_witness :
    (∀ i < 2, ((fun k => if k < 2 then ⟨1, 3, 6⟩ else ⟨0, 0, 3⟩ : Nat → Resumption) i).status
      = LUA_YIELD) ∧
    (∀ r tr, loveThreadFunc 504 (fun k => if k < 2 then ⟨1, 3, 6⟩ else ⟨0, 0, 3⟩) 3
        "game.love" 5 = some (r, tr) →
      r = 0 ∧ List.count (LuaCall.luax_resume 0) tr = 2 + 1 ∧
      List.count LuaCall.lua_close tr = 1) :=
  ⟨by decide,
    (loveThreadFunc_boot_sequence 504 (fun k => if k < 2 then ⟨1, 3, 6⟩ else ⟨0, 0, 3⟩) 3
      "game.love" 2 5 (by decide) (by decide) (by decide)).2⟩

/-- C9 (as stated, refuted): after a successful `init` from the initial
state, once the worker has run `loveThreadFunc` to its return (no thread is
running any more) and before any `quit`, `isActive` still returns true. -/
theorem active_after_worker_exit :
    (runWorker 0 504 (fun _ => ⟨0, 0, 3⟩) 3 1
        (init ⟨1⟩ (some 1) (some 7) "game.love" true true World.initial)).map
      (fun w => (w.host.running, isActive w)) = some ([], true) := by
  decide

/-- C9 (amended): after a successful `init` in any reachable stopped state,
once the worker has returned and before any `quit`, `isActive` still returns
true (the handles stay cached until `quit`); a following `quit` joins the
already finished thread without waiting, and after it `isActive` is false
provided the `GetJavaVM` of that `init` had stored a VM. -/
theorem worker_exit_keeps_session (ops : List Op) (env : JNIEnv) (vm : Option Nat)
    (context : Option Nat) (path : String) (refOk : Bool) (ver : Nat)
    (boot : Nat → Resumption) (stackpos : Int)
    (fuel : Nat) (env2 : Option JNIEnv) (w2 : World)
    (hstop : (run ops World.initial).session.loveThread = none)
    (hexit : runWorker (run ops World.initial).host.nextThread ver boot stackpos fuel
      (init env vm context path refOk true (run ops World.initial)) = some w2) :
    isActive w2 = true ∧
    (∃ rest, (quit env2 w2).host.trace = w2.host.trace ++
      [ Step.set_quitRequested true, Step.SDL_PushEvent quitEvent,
        Step.SDL_WaitThread (run ops World.initial).host.nextThread false,
        Step.set_loveThread none ] ++ rest) ∧
    (vm ≠ none → isActive (quit env2 w2) = false) := by
  have hinv := Inv_run ops World.initial Inv_initial
  generalize run ops World.initial = w0 at hstop hexit hinv
  obtain ⟨⟨lt, lp, qr, jvm, ar⟩, ⟨q, rn, nt, lr, dl, nr, tr⟩⟩ := w0
  simp only at hstop
  subst hstop
  have hnt : nt ∉ rn := fun h => Nat.lt_irrefl _ (hinv.running_lt nt h)
  simp only [runWorker, Option.map_eq_some'] at hexit
  obtain ⟨_, _, rfl⟩ := hexit
  cases vm <;> cases context <;> cases refOk <;> cases env2 <;>
    simp [init, quit, threadReturn, isActive, emit, NewGlobalRef, SDL_CreateThread,
      SDL_PushEvent, SDL_WaitThread, DeleteGlobalRef, quitEvent, hnt,
      List.erase_append_right]

theorem worker_exit_keeps_session_witness :
    World.initial.session.loveThread = none ∧
    isActive (threadReturn 0
      (init ⟨1⟩ (some 1) (some 7) "game.love" true true World.initial)) = true ∧
    isActive (quit (some ⟨1⟩) (threadReturn 0
      (init ⟨1⟩ (some 1) (some 7) "game.love" true true World.initial))) = false :=
  ⟨rfl,
    (worker_exit_keeps_session [] ⟨1⟩ (some 1) (some 7) "game.love" true 504
      (fun _ => ⟨0, 0, 3⟩) 3 1 (some ⟨1⟩)
      (threadReturn 0 (init ⟨1⟩ (some 1) (some 7) "game.love" true true World.initial))
      rfl (by decide)).1,
    (worker_exit_keeps_session [] ⟨1⟩ (some 1) (some 7) "game.love" true 504
      (fun _ => ⟨0, 0, 3⟩) 3 1 (some ⟨1⟩)
      (threadReturn 0 (init ⟨1⟩ (some 1) (some 7) "game.love" true true World.initial))
      rfl (by decide)).2.2 (by decide)⟩

end love.android.fragment
